import Mathlib

/-!
Verification development for the freight data-migration orchestration
engine.  Definitions are shallow embeddings of the Python sources:

* `src/freight/worker/tasks.py` — the Celery worker tasks
  (`process_migration_batch`, `retry_failed_batch`)
* `src/freight/worker/main.py` — the queue routing table (`task_routes`)
* `src/mcp-servers/fastapi-integration/freight_mcp_server.py` — the job
  management endpoints (`create_job`, `get_job`, `retry_job`,
  `cancel_job`) and the data model (`JobStatus`, `MigrationJob`,
  `MigrationLog`)

Components that the specification designs but that are absent from the
sources (the Batcher of spec section 4.1 and the two-lane dispatch loop of
spec section 4.2) are modelled from the specification text; their doc
comments say so explicitly.
-/

namespace Freight

/-! ## Data model, from freight_mcp_server.py -/

/-- Embedding of `class JobStatus(str, Enum)` from freight_mcp_server.py
(lines 16-20).  The enum has exactly the four members `PENDING`, `RUNNING`,
`COMPLETED`, `FAILED`. -/
inductive JobStatus where
  | pending
  | running
  | completed
  | failed
deriving DecidableEq, Repr

/-- The string value each `JobStatus` member carries in the source
(`class JobStatus(str, Enum)`). -/
def jobStatusValue : JobStatus → String
  | .pending => "pending"
  | .running => "running"
  | .completed => "completed"
  | .failed => "failed"

/-- Embedding of `class LogStatus(str, Enum)` from freight_mcp_server.py. -/
inductive LogStatus where
  | success
  | failed
  | retrying
deriving DecidableEq, Repr

/-- Embedding of the `MigrationJob` pydantic model.  Timestamps are
modelled as natural numbers. -/
structure MigrationJob where
  id : String
  tenant_id : String
  status : JobStatus
  record_count : Nat
  failed_batches : Nat
  started_by : String
  created_at : Nat
  updated_at : Nat
deriving DecidableEq, Repr

/-- Embedding of the `MigrationLog` pydantic model. -/
structure MigrationLog where
  id : String
  job_id : String
  tenant_id : String
  record_id : String
  status : LogStatus
  error_message : Option String
  retry_count : Nat
  timestamp : Nat
deriving DecidableEq, Repr

/-- Embedding of the `CreateJobRequest` pydantic model.  The opaque
`Dict[str, Any]` configuration payloads are modelled as association lists
of strings; `batch_size` and `max_retries` are Python ints, hence `Int`. -/
structure CreateJobRequest where
  source_config : List (String × String)
  target_config : List (String × String)
  batch_size : Int
  max_retries : Int
  started_by : String
deriving DecidableEq, Repr

/-- Embedding of the `RetryRequest` pydantic model. -/
structure RetryRequest where
  batch_ids : Option (List String)
  max_retries : Option Int
deriving DecidableEq, Repr

/-- An HTTP error as raised by `HTTPException(status_code=..., detail=...)`. -/
structure HttpError where
  status_code : Nat
  detail : String
deriving DecidableEq, Repr

/-- The server's observable persistent state: the jobs and logs stores the
ledger would hold, and the queue of task payloads handed to the transport.
The handlers in freight_mcp_server.py perform no database reads or writes
and send no tasks (all such calls are commented out as TODO), so each
handler below threads this state through unchanged. -/
structure ServerState where
  jobs : List MigrationJob
  logs : List MigrationLog
  queue : List String
deriving DecidableEq, Repr

/-! ## Worker tasks, from tasks.py -/

/-- The dictionary returned by `process_migration_batch` in tasks.py. -/
structure BatchResult (α : Type) where
  tenant_id : String
  job_id : String
  batch_id : String
  processed : Nat
  failed : Nat
  errors : List String
deriving DecidableEq, Repr

/-- Embedding of `process_migration_batch` (tasks.py lines 8-32).  The body
is a stub: it returns `processed = len(records)`, `failed = 0`,
`errors = []` and performs no per-record work (`# TODO: Implement actual
migration logic`). -/
def process_migration_batch (tenant_id job_id batch_id : String)
    (records : List α) : BatchResult α :=
  { tenant_id := tenant_id
    job_id := job_id
    batch_id := batch_id
    processed := records.length
    failed := 0
    errors := [] }

/-- The dictionary returned by `retry_failed_batch` in tasks.py. -/
structure RetryResult where
  tenant_id : String
  job_id : String
  batch_id : String
  retry_attempt : Nat
  status : String
deriving DecidableEq, Repr

/-- Embedding of `retry_failed_batch` (tasks.py lines 35-57).  The body is
a stub (`# TODO: Implement retry logic`): it reads `self.request.retries`
(modelled as the `request_retries` argument) and unconditionally returns
`retry_attempt = retries + 1` with status `"retried"`; it consults no
`max_retries` ceiling and never marks anything exhausted. -/
def retry_failed_batch (tenant_id job_id batch_id : String)
    (request_retries : Nat) : RetryResult :=
  { tenant_id := tenant_id
    job_id := job_id
    batch_id := batch_id
    retry_attempt := request_retries + 1
    status := "retried" }

/-! ## Queue routing, from worker/main.py -/

/-- Embedding of `celery_app.conf.task_routes` (worker/main.py lines
31-34): `process_migration_batch` is routed to the `default` queue and
`retry_failed_batch` to the `high_priority` queue. -/
def task_routes (task_name : String) : Option String :=
  if task_name = "freight.worker.tasks.process_migration_batch" then
    some "default"
  else if task_name = "freight.worker.tasks.retry_failed_batch" then
    some "high_priority"
  else
    none

/-! ## Job management endpoints, from freight_mcp_server.py -/

/-- Embedding of the `create_job` handler (freight_mcp_server.py lines
82-110).  The freshly generated `uuid` and the current time are passed as
the `job_id` and `now` arguments.  The handler validates nothing, builds a
`MigrationJob` with status `PENDING` and `record_count = 0`, queues
nothing (`# TODO: Queue job with Celery`), and returns it; it never raises. -/
def create_job (st : ServerState) (job_request : CreateJobRequest)
    (tenant_id : String) (job_id : String) (now : Nat) :
    ServerState × Except HttpError MigrationJob :=
  (st, Except.ok
    { id := job_id
      tenant_id := tenant_id
      status := JobStatus.pending
      record_count := 0
      failed_batches := 0
      started_by := job_request.started_by
      created_at := now
      updated_at := now })

/-- Embedding of the `get_job` handler (freight_mcp_server.py lines
129-140).  The body performs no lookup (`# TODO: Implement database lookup
with tenant isolation`) and unconditionally raises
`HTTPException(status_code=404, detail="Job not found")`. -/
def get_job (st : ServerState) (job_id : String) (tenant_id : String) :
    Except HttpError MigrationJob :=
  Except.error { status_code := 404, detail := "Job not found" }

/-- The value of the `retry_count` field in `retry_job`'s response: the
Python expression `len(retry_request.batch_ids) if retry_request.batch_ids
else "all_failed"` yields a number or the string `"all_failed"` (note that
both `None` and the empty list are falsy). -/
inductive RetryCountField where
  | count (n : Nat)
  | all_failed
deriving DecidableEq, Repr

/-- The dictionary returned by the `retry_job` handler. -/
structure RetryJobResponse where
  message : String
  job_id : String
  retry_count : RetryCountField
deriving DecidableEq, Repr

/-- Embedding of the `retry_job` handler (freight_mcp_server.py lines
142-161).  The body enqueues nothing (`# TODO: Implement retry logic with
Celery`) and only returns a message echoing the job id. -/
def retry_job (st : ServerState) (job_id : String)
    (retry_request : RetryRequest) (tenant_id : String) :
    ServerState × RetryJobResponse :=
  (st,
    { message := "Retry initiated for job " ++ job_id
      job_id := job_id
      retry_count :=
        match retry_request.batch_ids with
        | some ids =>
            if ids.length = 0 then RetryCountField.all_failed
            else RetryCountField.count ids.length
        | none => RetryCountField.all_failed })

/-- The dictionary returned by the `cancel_job` handler. -/
structure CancelJobResponse where
  message : String
  job_id : String
deriving DecidableEq, Repr

/-- Embedding of the `cancel_job` handler (freight_mcp_server.py lines
163-176).  The body performs no cancellation (`# TODO: Implement job
cancellation with Celery`) and only returns a message echoing the job id;
no job or batch status is touched. -/
def cancel_job (st : ServerState) (job_id : String) (tenant_id : String) :
    ServerState × CancelJobResponse :=
  (st, { message := "Job " ++ job_id ++ " cancelled", job_id := job_id })

/-! ## Batcher, modelled from the specification

The specification (section 4.1) designs a Batcher component, but no
batching code exists anywhere in the repository sources; the definitions
in this section are therefore modelled from the specification text. -/

/-- Modelled from the spec: the error taxonomy of spec section 7
(`InvalidConfiguration`, `NotFound`, `InvalidState`, `QueueUnavailable`);
no such taxonomy exists in the sources. -/
inductive FreightError where
  | invalidConfiguration
  | notFound
  | invalidState
  | queueUnavailable
deriving DecidableEq, Repr

/-- Modelled from the spec: split an ordered record set into contiguous
chunks of `B` records each, the final chunk possibly smaller (spec
section 4.1); absent from the sources.  For `B > 0` the head chunk is
`l.take B` and the rest chunks `l.drop B`. -/
def chunkList (B : Nat) : List α → List (List α)
  | [] => []
  | x :: xs => (x :: xs.take (B - 1)) :: chunkList B (xs.drop (B - 1))
termination_by l => l.length
decreasing_by simp [List.length_drop]; omega

/-- Modelled from the spec: batch IDs are assigned deterministically as a
function of job ID and batch index (spec section 4.1); absent from the
sources. -/
def mkBatchId (job_id : String) (idx : Nat) : String :=
  job_id ++ "-batch-" ++ toString idx

/-- Modelled from the spec: a batch as produced by the Batcher — an ID, the
owning job's ID, and an ordered sequence of record payloads (spec
section 3); absent from the sources. -/
structure SpecBatch (α : Type) where
  batch_id : String
  job_id : String
  records : List α
deriving DecidableEq, Repr

/-- Modelled from the spec: attach deterministic batch IDs to the ordered
chunks, numbering from `idx` (spec section 4.1); absent from the sources. -/
def labelBatches (job_id : String) (idx : Nat) :
    List (List α) → List (SpecBatch α)
  | [] => []
  | c :: cs =>
      { batch_id := mkBatchId job_id idx, job_id := job_id, records := c } ::
        labelBatches job_id (idx + 1) cs

/-- Modelled from the spec: the Batcher of spec section 4.1 — given an
ordered record set and a batch size, produce the ordered list of batches,
or fail with `InvalidConfiguration` if the batch size is not positive;
absent from the sources. -/
def batcher (job_id : String) (R : List α) (B : Nat) :
    Except FreightError (List (SpecBatch α)) :=
  if 0 < B then Except.ok (labelBatches job_id 0 (chunkList B R))
  else Except.error FreightError.invalidConfiguration

/-! ## Dispatcher fairness, modelled from the specification

The sources only declare the two queues (`task_routes` above); the
dispatch loop itself is the transport's and is not part of the sources.
The two-lane discipline with the starvation-avoidance bound K of spec
section 4.2 is therefore modelled from the specification text. -/

/-- Modelled from the spec: the two priority lanes (spec section 4.2);
absent from the sources. -/
inductive Lane where
  | high
  | normal
deriving DecidableEq, Repr

/-- Modelled from the spec: a batch-processing work item (spec section 6
task payload); absent from the sources. -/
structure WorkItem where
  job_id : String
  tenant_id : String
  batch_id : String
  attempt : Nat
deriving DecidableEq, Repr

/-- Modelled from the spec: the dispatcher's two lanes plus the count of
consecutive high-priority dispatches since the last normal-lane dispatch
(spec section 4.2); absent from the sources. -/
structure DispatchState where
  highLane : List WorkItem
  normalLane : List WorkItem
  consecHigh : Nat
deriving DecidableEq, Repr

/-- Modelled from the spec: one dispatch decision (spec section 4.2).
High-priority items are served first whenever both lanes are non-empty,
except that after `K` consecutive high-priority dispatches the normal lane
is served; serving the normal lane resets the consecutive-high counter;
absent from the sources. -/
def dispatchStep (K : Nat) (s : DispatchState) :
    Option (Lane × WorkItem × DispatchState) :=
  match s.highLane, s.normalLane with
  | [], [] => none
  | [], n :: ns =>
      some (Lane.normal, n,
        { highLane := [], normalLane := ns, consecHigh := 0 })
  | h :: hs, [] =>
      some (Lane.high, h,
        { highLane := hs, normalLane := [], consecHigh := s.consecHigh + 1 })
  | h :: hs, n :: ns =>
      if s.consecHigh < K then
        some (Lane.high, h,
          { highLane := hs, normalLane := n :: ns,
            consecHigh := s.consecHigh + 1 })
      else
        some (Lane.normal, n,
          { highLane := h :: hs, normalLane := ns, consecHigh := 0 })

/-- The length of the run of consecutive high-lane dispatches from state
`s` during which the normal lane stays non-empty, cut off at `fuel`
steps.  Used to state the starvation bound of spec section 4.2. -/
def highRunLen (K : Nat) : Nat → DispatchState → Nat
  | 0, _ => 0
  | fuel + 1, s =>
      if s.normalLane = [] then 0
      else
        match dispatchStep K s with
        | some (Lane.high, _, next) => highRunLen K fuel next + 1
        | _ => 0

/-! ## Helper lemmas about the Batcher -/

theorem chunkList_flatten (B : Nat) : ∀ (l : List α), (chunkList B l).flatten = l
  | [] => by simp [chunkList]
  | x :: xs => by
    simp only [chunkList, List.flatten_cons]
    rw [chunkList_flatten B (xs.drop (B - 1))]
    simp [List.take_append_drop]
termination_by l => l.length
decreasing_by simp [List.length_drop]; omega

theorem chunkList_mem_length_le (B : Nat) (hB : 0 < B) :
    ∀ (l : List α) (c : List α), c ∈ chunkList B l → c.length ≤ B
  | [], c => by simp [chunkList]
  | x :: xs, c => by
    simp only [chunkList, List.mem_cons]
    rintro (rfl | hc)
    · simp only [List.length_cons, List.length_take]
      omega
    · exact chunkList_mem_length_le B hB (xs.drop (B - 1)) c hc
termination_by l => l.length
decreasing_by simp [List.length_drop]; omega

theorem chunkList_length (B : Nat) (hB : 0 < B) :
    ∀ (l : List α), (chunkList B l).length = (l.length + B - 1) / B
  | [] => by
    simp only [chunkList, List.length_nil, Nat.zero_add]
    rw [Nat.div_eq_of_lt (by omega)]
  | x :: xs => by
    simp only [chunkList, List.length_cons]
    rw [chunkList_length B hB (xs.drop (B - 1))]
    simp only [List.length_drop]
    rcases Nat.lt_or_ge xs.length (B - 1) with h | h
    · have h0 : xs.length - (B - 1) = 0 := by omega
      have h1 : xs.length + 1 + B - 1 = xs.length + B := by omega
      rw [h0, h1, Nat.add_div_right _ hB, Nat.div_eq_of_lt (by omega),
        Nat.div_eq_of_lt (by omega)]
    · have h0 : xs.length - (B - 1) + B - 1 = xs.length := by omega
      have h1 : xs.length + 1 + B - 1 = xs.length + B := by omega
      rw [h0, h1, Nat.add_div_right _ hB]
termination_by l => l.length
decreasing_by simp [List.length_drop]; omega

theorem chunkList_dropLast_length (B : Nat) (hB : 0 < B) :
    ∀ (l : List α) (c : List α), c ∈ (chunkList B l).dropLast → c.length = B
  | [], c => by simp [chunkList]
  | x :: xs, c => by
    simp only [chunkList]
    rcases hxs : xs.drop (B - 1) with _ | ⟨y, ys⟩
    · simp [chunkList]
    · have hlen : xs.length - (B - 1) = ys.length + 1 := by
        have := congrArg List.length hxs
        simpa [List.length_drop] using this
      simp only [chunkList, List.dropLast_cons₂, List.mem_cons]
      rintro (rfl | hc)
      · simp only [List.length_cons, List.length_take]
        omega
      · have hrec := chunkList_dropLast_length B hB (xs.drop (B - 1)) c
        rw [hxs] at hrec
        exact hrec (by simpa [chunkList] using hc)
termination_by l => l.length
decreasing_by simp [List.length_drop]; omega

theorem labelBatches_map_records (job_id : String) :
    ∀ (idx : Nat) (cs : List (List α)),
      (labelBatches job_id idx cs).map SpecBatch.records = cs
  | _, [] => rfl
  | idx, c :: cs => by
    simp only [labelBatches, List.map_cons]
    rw [labelBatches_map_records job_id (idx + 1) cs]

theorem labelBatches_length (job_id : String) (idx : Nat)
    (cs : List (List α)) : (labelBatches job_id idx cs).length = cs.length := by
  have h := congrArg List.length (labelBatches_map_records job_id idx cs)
  simpa using h

theorem labelBatches_records_mem (job_id : String) (idx : Nat)
    (cs : List (List α)) (b : SpecBatch α)
    (hb : b ∈ labelBatches job_id idx cs) : b.records ∈ cs := by
  have h := List.mem_map_of_mem SpecBatch.records hb
  rwa [labelBatches_map_records] at h

theorem labelBatches_dropLast_records_mem (job_id : String) (idx : Nat)
    (cs : List (List α)) (b : SpecBatch α)
    (hb : b ∈ (labelBatches job_id idx cs).dropLast) :
    b.records ∈ cs.dropLast := by
  have h := List.mem_map_of_mem SpecBatch.records hb
  rw [List.map_dropLast, labelBatches_map_records] at h
  exact h

theorem labelBatches_get_batch_id (job_id : String) :
    ∀ (cs : List (List α)) (idx i : Nat)
      (hi : i < (labelBatches job_id idx cs).length),
      ((labelBatches job_id idx cs).get ⟨i, hi⟩).batch_id =
        mkBatchId job_id (idx + i)
  | [], idx, i, hi => by simp [labelBatches] at hi
  | c :: cs, idx, 0, hi => by simp [labelBatches]
  | c :: cs, idx, i + 1, hi => by
    have hi2 : i < (labelBatches job_id (idx + 1) cs).length := by
      simpa [labelBatches] using hi
    simp only [labelBatches, List.get_cons_succ]
    rw [labelBatches_get_batch_id job_id cs (idx + 1) i hi2]
    congr 1
    omega

/-! ## Helper lemmas about the Dispatcher -/

theorem highRunLen_le_sub (K : Nat) :
    ∀ (fuel : Nat) (s : DispatchState),
      highRunLen K fuel s ≤ K - s.consecHigh
  | 0, s => by simp [highRunLen]
  | fuel + 1, s => by
    simp only [highRunLen]
    rcases hn : s.normalLane with _ | ⟨n, ns⟩
    · simp
    · rcases hh : s.highLane with _ | ⟨h, hs⟩
      · simp [dispatchStep, hh, hn]
      · by_cases hc : s.consecHigh < K
        · have hrec := highRunLen_le_sub K fuel
            { highLane := hs, normalLane := n :: ns,
              consecHigh := s.consecHigh + 1 }
          simp only at hrec
          simp [dispatchStep, hh, hn, hc]
          omega
        · simp [dispatchStep, hh, hn, hc]

/-! ## Claim theorems -/

/-- C1: for every record set R and every batch size B > 0, the Batcher
produces an ordered sequence of batches that partitions R exactly (no
record lost, none duplicated, input order preserved), every batch holds at
most B records, the number of batches equals ceil of the record count over
B, and only the final batch may hold fewer than B records.  (Batcher
modelled from the spec; no batching code exists in the sources.) -/
theorem c1_batcher_partitions {α : Type} (job_id : String) (R : List α)
    (B : Nat) (hB : 0 < B) :
    ∃ bs : List (SpecBatch α),
      batcher job_id R B = Except.ok bs ∧
        (bs.map SpecBatch.records).flatten = R ∧
        (∀ b ∈ bs, b.records.length ≤ B) ∧
        bs.length = (R.length + B - 1) / B ∧
        (∀ b ∈ bs.dropLast, b.records.length = B) := by
  refine ⟨labelBatches job_id 0 (chunkList B R), ?_, ?_, ?_, ?_, ?_⟩
  · simp [batcher, hB]
  · rw [labelBatches_map_records, chunkList_flatten]
  · intro b hb
    exact chunkList_mem_length_le B hB R _ (labelBatches_records_mem _ _ _ _ hb)
  · rw [labelBatches_length, chunkList_length B hB]
  · intro b hb
    exact chunkList_dropLast_length B hB R _
      (labelBatches_dropLast_records_mem _ _ _ _ hb)

/-- Witness for C1 at R = [1, 2, 3, 4, 5], B = 2. -/
theorem c1_batcher_partitions_witness :
    (0 : Nat) < 2 ∧
      ∃ bs : List (SpecBatch Nat),
        batcher "job-1" [1, 2, 3, 4, 5] 2 = Except.ok bs ∧
          (bs.map SpecBatch.records).flatten = [1, 2, 3, 4, 5] ∧
          (∀ b ∈ bs, b.records.length ≤ 2) ∧
          bs.length = (([1, 2, 3, 4, 5] : List Nat).length + 2 - 1) / 2 ∧
          (∀ b ∈ bs.dropLast, b.records.length = 2) :=
  ⟨by decide, c1_batcher_partitions "job-1" [1, 2, 3, 4, 5] 2 (by decide)⟩

/-- C2: the claim states the Retry Engine enforces the max-retries ceiling
(re-enqueue below the ceiling, mark exhausted at the ceiling).  The code's
`retry_failed_batch` is a TODO stub: evaluated at the failing input — a
batch whose job has max_retries = 0 and whose attempt count is already
5 — it still reports status "retried" with attempt 6, and no attempt count
ever makes it report "exhausted". -/
theorem c2_retry_failed_batch_never_exhausts :
    (retry_failed_batch "tenant-1" "job-1" "batch-1" 5).status = "retried" ∧
      (retry_failed_batch "tenant-1" "job-1" "batch-1" 5).retry_attempt = 6 ∧
      ∀ r : Nat,
        (retry_failed_batch "tenant-1" "job-1" "batch-1" r).status ≠
          "exhausted" := by
  refine ⟨rfl, rfl, fun r => ?_⟩
  simp [retry_failed_batch]

/-- C3: for distinct tenants A and B and a job owned by B, `get_job`
called with A's identity and that job's ID returns NotFound (HTTP 404) and
never returns the job's data.  (The handler returns 404 unconditionally,
so the claimed isolation property holds for every state.) -/
theorem c3_get_job_tenant_isolation (st : ServerState)
    (tenantA tenantB : String) (job : MigrationJob)
    (hAB : tenantA ≠ tenantB) (hmem : job ∈ st.jobs)
    (hown : job.tenant_id = tenantB) :
    get_job st job.id tenantA =
        Except.error { status_code := 404, detail := "Job not found" } ∧
      ∀ j : MigrationJob, get_job st job.id tenantA ≠ Except.ok j := by
  refine ⟨rfl, fun j h => ?_⟩
  simp [get_job] at h

/-- Witness for C3: tenant "alpha" looking up tenant "beta"'s job. -/
theorem c3_get_job_tenant_isolation_witness :
    ("alpha" : String) ≠ "beta" ∧
      (⟨"job-9", "beta", JobStatus.pending, 0, 0, "ops", 0, 0⟩ : MigrationJob) ∈
        (⟨[⟨"job-9", "beta", JobStatus.pending, 0, 0, "ops", 0, 0⟩], [], []⟩ :
            ServerState).jobs ∧
      (get_job
            ⟨[⟨"job-9", "beta", JobStatus.pending, 0, 0, "ops", 0, 0⟩], [], []⟩
            "job-9" "alpha" =
          Except.error { status_code := 404, detail := "Job not found" } ∧
        ∀ j : MigrationJob,
          get_job
              ⟨[⟨"job-9", "beta", JobStatus.pending, 0, 0, "ops", 0, 0⟩], [], []⟩
              "job-9" "alpha" ≠
            Except.ok j) :=
  ⟨by decide, by decide,
    c3_get_job_tenant_isolation
      ⟨[⟨"job-9", "beta", JobStatus.pending, 0, 0, "ops", 0, 0⟩], [], []⟩
      "alpha" "beta" ⟨"job-9", "beta", JobStatus.pending, 0, 0, "ops", 0, 0⟩
      (by decide) (by decide) rfl⟩

/-- C4: the claim states the Batch Processor executes each record
independently, aggregates failures into the result, and the batch is
marked failed exactly when some record failed.  The code's
`process_migration_batch` is a TODO stub: for every input (in particular
the failing input, a batch containing records no real migration could
process) it reports failed = 0 with an empty error list, so no record is
ever classified as failed and no batch could ever be marked failed. -/
theorem c4_process_migration_batch_cannot_fail_records :
    (∀ (records : List (String × String)) (t j b : String),
        (process_migration_batch t j b records).failed = 0 ∧
          (process_migration_batch t j b records).errors = []) ∧
      (process_migration_batch "t-a" "job-1" "batch-0"
            [("id", "1"), ("id", "2")]).failed = 0 ∧
      (process_migration_batch "t-a" "job-1" "batch-0"
            [("id", "1"), ("id", "2")]).errors = [] :=
  ⟨fun _ _ _ _ => ⟨rfl, rfl⟩, rfl, rfl⟩

/-- C5: the claim states `create_job` validates batch_size > 0,
max_retries ≥ 0 and non-empty configs, failing with InvalidConfiguration
on invalid input.  The code validates nothing: at the failing input
(batch_size = 0, max_retries = -1, both configs empty) it returns a
pending job, and for every input whatsoever it returns Except.ok — it can
never signal InvalidConfiguration. -/
theorem c5_create_job_accepts_invalid_input :
    (create_job ⟨[], [], []⟩ ⟨[], [], 0, -1, "ops"⟩ "t-a" "job-0" 0).2 =
        Except.ok ⟨"job-0", "t-a", JobStatus.pending, 0, 0, "ops", 0, 0⟩ ∧
      ∀ (st : ServerState) (req : CreateJobRequest)
        (tenant_id job_id : String) (now : Nat),
        ∃ job : MigrationJob,
          (create_job st req tenant_id job_id now).2 = Except.ok job :=
  ⟨rfl, fun _ _ _ _ _ => ⟨_, rfl⟩⟩

/-- C6: the claim states `cancel_job` transitions a non-terminal job to
cancelled and that cancelled is a status a job can actually hold.  In the
code no member of `JobStatus` carries the value "cancelled", and
`cancel_job` changes no state at all: at the failing input (a pending job
"job-1") it returns only an echo message. -/
theorem c6_cancel_job_no_cancelled_status :
    (∀ s : JobStatus, jobStatusValue s ≠ "cancelled") ∧
      (∀ (st : ServerState) (job_id tenant_id : String),
          (cancel_job st job_id tenant_id).1 = st) ∧
      (cancel_job
            ⟨[⟨"job-1", "t-a", JobStatus.pending, 0, 0, "ops", 0, 0⟩], [], []⟩
            "job-1" "t-a").2 =
        { message := "Job job-1 cancelled", job_id := "job-1" } := by
  refine ⟨fun s => ?_, fun _ _ _ => rfl, rfl⟩
  cases s <;> decide

/-- C7: retry tasks are routed to the high_priority queue and first-attempt
batch-processing tasks to the default queue (from the sources); and, in
the dispatcher modelled from spec section 4.2, whenever both lanes are
non-empty a high-priority item is served first, but never more than K
consecutive high-priority dispatches occur while the normal lane is
non-empty. -/
theorem c7_priority_lanes_fairness (K : Nat) :
    (task_routes "freight.worker.tasks.retry_failed_batch" =
        some "high_priority" ∧
      task_routes "freight.worker.tasks.process_migration_batch" =
        some "default") ∧
      (∀ (s : DispatchState) (h : WorkItem) (hs : List WorkItem)
          (n : WorkItem) (ns : List WorkItem),
          s.highLane = h :: hs → s.normalLane = n :: ns →
          s.consecHigh < K →
          dispatchStep K s =
            some (Lane.high, h,
              { highLane := hs, normalLane := n :: ns,
                consecHigh := s.consecHigh + 1 })) ∧
      ∀ (fuel : Nat) (s : DispatchState),
        s.consecHigh = 0 → highRunLen K fuel s ≤ K := by
  refine ⟨⟨by decide, by decide⟩, ?_, ?_⟩
  · intro s h hs n ns hh hn hc
    simp [dispatchStep, hh, hn, hc]
  · intro fuel s h0
    have hle := highRunLen_le_sub K fuel s
    omega

/-- Witness for C7 at K = 2 with concrete lanes. -/
theorem c7_priority_lanes_fairness_witness :
    dispatchStep 2
        ⟨[⟨"j1", "t1", "b1", 1⟩], [⟨"j1", "t1", "b0", 0⟩], 0⟩ =
      some (Lane.high, ⟨"j1", "t1", "b1", 1⟩,
        ⟨[], [⟨"j1", "t1", "b0", 0⟩], 1⟩) ∧
      highRunLen 2 4
          ⟨[⟨"j1", "t1", "b1", 1⟩, ⟨"j1", "t1", "b2", 1⟩],
            [⟨"j1", "t1", "b0", 0⟩], 0⟩ ≤ 2 :=
  ⟨(c7_priority_lanes_fairness 2).2.1 _ _ _ _ _ rfl rfl (by decide),
    (c7_priority_lanes_fairness 2).2.2 4 _ rfl⟩

/-- C8: batch ID assignment is a deterministic function of the job ID and
the batch index, and re-running the Batcher on the identical
(job_id, R, B) yields the identical batches — same IDs, same contents.
(Batcher modelled from the spec; no batching code exists in the sources.) -/
theorem c8_batcher_deterministic_ids {α : Type} (job_id : String)
    (R : List α) (B : Nat) (bs : List (SpecBatch α))
    (hok : batcher job_id R B = Except.ok bs) :
    (∀ (i : Nat) (hi : i < bs.length),
        (bs.get ⟨i, hi⟩).batch_id = mkBatchId job_id i) ∧
      ∀ bs2 : List (SpecBatch α),
        batcher job_id R B = Except.ok bs2 → bs2 = bs := by
  constructor
  · intro i hi
    have hbs : bs = labelBatches job_id 0 (chunkList B R) := by
      by_cases hB : 0 < B
      · simp [batcher, hB] at hok
        exact hok.symm
      · simp [batcher, hB] at hok
    subst hbs
    simpa using labelBatches_get_batch_id job_id (chunkList B R) 0 i hi
  · intro bs2 h2
    rw [hok] at h2
    injection h2 with h
    exact h.symm

/-- Witness for C8 at job "j7", R = [10, 20, 30], B = 2. -/
theorem c8_batcher_deterministic_ids_witness :
    batcher "j7" [10, 20, 30] 2 =
        Except.ok [⟨"j7-batch-0", "j7", [10, 20]⟩,
          ⟨"j7-batch-1", "j7", ([30] : List Nat)⟩] ∧
      ((∀ (i : Nat)
          (hi : i < ([⟨"j7-batch-0", "j7", [10, 20]⟩,
            ⟨"j7-batch-1", "j7", ([30] : List Nat)⟩] :
              List (SpecBatch Nat)).length),
          (([⟨"j7-batch-0", "j7", [10, 20]⟩,
            ⟨"j7-batch-1", "j7", ([30] : List Nat)⟩] :
              List (SpecBatch Nat)).get ⟨i, hi⟩).batch_id =
            mkBatchId "j7" i) ∧
        ∀ bs2 : List (SpecBatch Nat),
          batcher "j7" [10, 20, 30] 2 = Except.ok bs2 →
          bs2 = [⟨"j7-batch-0", "j7", [10, 20]⟩,
            ⟨"j7-batch-1", "j7", ([30] : List Nat)⟩]) :=
  have hok : batcher "j7" [10, 20, 30] 2 =
      Except.ok [⟨"j7-batch-0", "j7", [10, 20]⟩,
        ⟨"j7-batch-1", "j7", ([30] : List Nat)⟩] := by
    simp [batcher, labelBatches, mkBatchId, chunkList]
    exact ⟨rfl, rfl⟩
  ⟨hok, c8_batcher_deterministic_ids "j7" [10, 20, 30] 2 _ hok⟩

/-- C9: for every input, `process_migration_batch` returns a result whose
processed count equals the length of the records list, whose failed count
is 0, and whose error list is empty — it never classifies any record as
failed, regardless of the records' contents. -/
theorem c9_process_migration_batch_stub {α : Type}
    (tenant_id job_id batch_id : String) (records : List α) :
    process_migration_batch tenant_id job_id batch_id records =
      { tenant_id := tenant_id, job_id := job_id, batch_id := batch_id,
        processed := records.length, failed := 0, errors := [] } := rfl

/-- C10: `retry_job` and `cancel_job` leave all job, batch and log state
unchanged for every input, enqueue no work, and return only messages
echoing the given job ID. -/
theorem c10_retry_cancel_no_state_change :
    ∀ (st : ServerState) (job_id tenant_id : String) (rr : RetryRequest),
      (retry_job st job_id rr tenant_id).1 = st ∧
        (cancel_job st job_id tenant_id).1 = st ∧
        (retry_job st job_id rr tenant_id).2.message =
          "Retry initiated for job " ++ job_id ∧
        (retry_job st job_id rr tenant_id).2.job_id = job_id ∧
        (cancel_job st job_id tenant_id).2.message =
          "Job " ++ job_id ++ " cancelled" ∧
        (cancel_job st job_id tenant_id).2.job_id = job_id :=
  fun _ _ _ _ => ⟨rfl, rfl, rfl, rfl, rfl, rfl⟩

end Freight
